import Mathlib

/-!
Verification development for the AI-Powered Waste Mapping Dashboard.

The definitions below are a shallow embedding of the clustering engine
(`src/agent 1/clustering/ClusteringEngine.js`), its HTTP-route validation
schema (`src/agent 1/routes/clustering.js`) and the route optimizer described
by the backend documentation.  JavaScript numbers are modelled as rationals
(`ℚ`) where only field arithmetic is involved and as reals (`ℝ`) where the
code calls transcendental functions (`Math.sin`, `Math.atan2`, ...).
Definitions named after source functions follow the source line by line;
definitions prefixed with `spec` follow the natural-language specification
and exist only to be compared against the code.
-/

namespace WasteMapping

/-- Environmental metrics attached to a hotspot
(`environmental_metrics` sub-document of the Hotspot schema). -/
structure EnvMetrics where
  estimated_waste_kg : ℚ
  co2_emissions : ℚ
  water_pollution_risk : String
  air_quality_impact : String
deriving DecidableEq, Repr

/-- A hotspot as consumed by the clustering engine.  `coordinates.coordinates`
is stored `[longitude, latitude]` in the source; we keep the two components as
`lng` and `lat`.  `calculated_severity` is a virtual field that may be absent
(`none` models JavaScript `undefined`), `typical_reports` keeps only the
report timestamps (in milliseconds) because the engine reads nothing else
from the reports. -/
structure Hotspot where
  lng : ℚ
  lat : ℚ
  base_severity : ℚ
  calculated_severity : Option ℚ
  waste_type : String
  environmental_metrics : Option EnvMetrics
  typical_reports : List ℚ
deriving DecidableEq, Repr

/-- The severity the engine reads from a hotspot:
`hotspot.calculated_severity || hotspot.base_severity`.  JavaScript `||`
falls through on `undefined` and on the falsy number `0`. -/
def effectiveSeverity (h : Hotspot) : ℚ :=
  match h.calculated_severity with
  | none => h.base_severity
  | some c => if c = 0 then h.base_severity else c

/-- `hotspot.environmental_metrics?.estimated_waste_kg || 0`. -/
def hotspotWasteKg (h : Hotspot) : ℚ :=
  match h.environmental_metrics with
  | none => 0
  | some m => m.estimated_waste_kg

/-- `hotspot.environmental_metrics?.co2_emissions || 0`. -/
def hotspotCO2 (h : Hotspot) : ℚ :=
  match h.environmental_metrics with
  | none => 0
  | some m => m.co2_emissions

/-- `hotspot.environmental_metrics?.water_pollution_risk` compared against a
string; an absent metrics object never matches. -/
def hotspotWaterRisk (h : Hotspot) : String :=
  match h.environmental_metrics with
  | none => ""
  | some m => m.water_pollution_risk

/-- `hotspot.environmental_metrics?.air_quality_impact`, same convention. -/
def hotspotAirImpact (h : Hotspot) : String :=
  match h.environmental_metrics with
  | none => ""
  | some m => m.air_quality_impact

/-- A plain hotspot with no reports, no metrics and no calculated severity;
used to build concrete examples. -/
def mkPlainHotspot (lng lat sev : ℚ) : Hotspot :=
  { lng := lng, lat := lat, base_severity := sev, calculated_severity := none,
    waste_type := "household", environmental_metrics := none,
    typical_reports := [] }

/-- Out-of-range array access in JavaScript yields `undefined`; the engine
never indexes out of range, so a fixed default hotspot suffices for the
embedding of `hotspots[i]`. -/
def defaultHotspot : Hotspot := mkPlainHotspot 0 0 0

/-- JavaScript `Math.round`: round half toward positive infinity. -/
def jsRound (x : ℚ) : ℤ := ⌊x + 1 / 2⌋

/-- `Math.max(...list)` for a non-empty list (the engine guards emptiness). -/
def maxOfList : List ℚ → ℚ
  | [] => 0
  | a :: rest => rest.foldl max a

/-- `Math.min(...list)` for a non-empty list. -/
def minOfList : List ℚ → ℚ
  | [] => 0
  | a :: rest => rest.foldl min a

/-- `prepareCoordinates` (ClusteringEngine.js lines 65-70): map each hotspot
to its `[longitude, latitude]` pair. -/
def prepareCoordinates (hotspots : List Hotspot) : List (ℚ × ℚ) :=
  hotspots.map (fun hotspot => (hotspot.lng, hotspot.lat))

/-- `calculateCentroid` (ClusteringEngine.js lines 322-329): the plain,
unweighted mean of the `[lng, lat]` points; `[0, 0]` for an empty list. -/
def calculateCentroid (points : List (ℚ × ℚ)) : ℚ × ℚ :=
  if points.length = 0 then (0, 0)
  else
    let sumLng := points.foldl (fun sum point => sum + point.1) 0
    let sumLat := points.foldl (fun sum point => sum + point.2) 0
    (sumLng / points.length, sumLat / points.length)

/-- Modelled from the spec (§3, §4.2): the severity-weighted mean of member
coordinates, each member's coordinates weighted by that member's severity.
Each list element is `((lng, lat), severity)`. -/
def specWeightedCentroid (members : List ((ℚ × ℚ) × ℚ)) : ℚ × ℚ :=
  let w := (members.map (fun m => m.2)).sum
  (((members.map (fun m => m.2 * m.1.1)).sum) / w,
   ((members.map (fun m => m.2 * m.1.2)).sum) / w)

/-- Modelled from the spec (§4.2 post-processing): per-cluster aggregate
severity `round(Σ(severity_i · weight_i) / Σ(weight_i))` with
`weight_i = severity_i`, clamped to `[1, 10]`. -/
def specAggregateSeverity (sevs : List ℚ) : ℤ :=
  min 10 (max 1 (jsRound ((sevs.map (fun s => s * s)).sum / sevs.sum)))

/-- JavaScript `Math.atan2(y, x)` over the reals: the standard two-argument
arctangent, case-split on the signs of the arguments. -/
noncomputable def jsAtan2 (y x : ℝ) : ℝ :=
  if 0 < x then Real.arctan (y / x)
  else if x < 0 ∧ 0 ≤ y then Real.arctan (y / x) + Real.pi
  else if x < 0 ∧ y < 0 then Real.arctan (y / x) - Real.pi
  else if x = 0 ∧ 0 < y then Real.pi / 2
  else if x = 0 ∧ y < 0 then -(Real.pi / 2)
  else 0

/-- `calculateDistance` (ClusteringEngine.js lines 361-374, duplicated in
models/Cluster.js lines 239-252): haversine great-circle distance in meters
with Earth radius `6371e3`. -/
noncomputable def calculateDistance (lat1 lon1 lat2 lon2 : ℝ) : ℝ :=
  let R : ℝ := 6371000
  let phi1 := lat1 * Real.pi / 180
  let phi2 := lat2 * Real.pi / 180
  let dphi := (lat2 - lat1) * Real.pi / 180
  let dlambda := (lon2 - lon1) * Real.pi / 180
  let a := Real.sin (dphi / 2) * Real.sin (dphi / 2) +
           Real.cos phi1 * Real.cos phi2 *
           Real.sin (dlambda / 2) * Real.sin (dlambda / 2)
  let c := 2 * jsAtan2 (Real.sqrt a) (Real.sqrt (1 - a))
  R * c

/-- `calculateClusterRadius` (ClusteringEngine.js lines 337-351): maximum
haversine distance from the centroid to any member point. -/
noncomputable def calculateClusterRadius (points : List (ℚ × ℚ)) (centroid : ℚ × ℚ) : ℝ :=
  if points.length = 0 then 0
  else points.foldl (fun maxDistance point =>
    max maxDistance
      (calculateDistance (centroid.2 : ℝ) (centroid.1 : ℝ) (point.2 : ℝ) (point.1 : ℝ))) 0

/-- The per-hotspot summand of `calculateClusterPriorityScore`
(ClusteringEngine.js lines 497-523): twice the effective severity, plus fixed
bonuses for critical waste types, critical environmental impact and recent
reports.  `now` models `Date.now()` in milliseconds. -/
def hotspotPriorityContribution (now : ℚ) (h : Hotspot) : ℚ :=
  let severityPart := effectiveSeverity h * 2
  let wasteTypeBonus : ℚ :=
    if h.waste_type = "medical" ∨ h.waste_type = "electronic" ∨ h.waste_type = "industrial"
    then 10 else 0
  let waterBonus : ℚ := if hotspotWaterRisk h = "critical" then 8 else 0
  let airBonus : ℚ := if hotspotAirImpact h = "critical" then 8 else 0
  let recencyBonus : ℚ :=
    match h.typical_reports with
    | [] => 0
    | t :: ts =>
      let latestReport := (ts).foldl max t
      let daysSinceReport := (now - latestReport) / (1000 * 60 * 60 * 24)
      if daysSinceReport ≤ 1 then 5
      else if daysSinceReport ≤ 7 then 3
      else 0
  severityPart + wasteTypeBonus + waterBonus + airBonus + recencyBonus

/-- `calculateClusterPriorityScore` (ClusteringEngine.js lines 494-526):
accumulate the per-hotspot contributions, round, cap at 100. -/
def calculateClusterPriorityScore (memberHotspots : List Hotspot) (now : ℚ) : ℤ :=
  let score := memberHotspots.foldl (fun score h => score + hotspotPriorityContribution now h) 0
  min 100 (jsRound score)

/-- The cluster statistics record built by `calculateClusterStatistics`. -/
structure ClusterStatistics where
  totalHotspots : ℕ
  averageSeverity : ℚ
  maxSeverity : ℚ
  minSeverity : ℚ
  totalWasteKg : ℚ
  totalCO2Emissions : ℚ
  priorityScore : ℤ
deriving DecidableEq, Repr

/-- `calculateClusterStatistics` (ClusteringEngine.js lines 447-473):
zeros for an empty member list; otherwise the lodash mean (`_.mean`),
`Math.max`/`Math.min` and sums over the members' severities and
environmental metrics. -/
def calculateClusterStatistics (memberHotspots : List Hotspot) (now : ℚ) : ClusterStatistics :=
  if memberHotspots.length = 0 then
    { totalHotspots := 0, averageSeverity := 0, maxSeverity := 0, minSeverity := 0,
      totalWasteKg := 0, totalCO2Emissions := 0, priorityScore := 0 }
  else
    let severities := memberHotspots.map effectiveSeverity
    let wasteAmounts := memberHotspots.map hotspotWasteKg
    let co2Amounts := memberHotspots.map hotspotCO2
    { totalHotspots := memberHotspots.length,
      averageSeverity := severities.sum / memberHotspots.length,
      maxSeverity := maxOfList severities,
      minSeverity := minOfList severities,
      totalWasteKg := wasteAmounts.sum,
      totalCO2Emissions := co2Amounts.sum,
      priorityScore := calculateClusterPriorityScore memberHotspots now }

/-- `calculatePriorityLevel` (ClusteringEngine.js lines 480-487). -/
def calculatePriorityLevel (statistics : ClusterStatistics) : String :=
  if statistics.priorityScore ≥ 80 then "critical"
  else if statistics.priorityScore ≥ 60 then "high"
  else if statistics.priorityScore ≥ 40 then "medium"
  else "low"

/-- A cluster object as produced by the engine.  The `name`, `statistics` and
`priorityLevel` fields are absent (`none`) until `postProcessClusters` adds
them, mirroring the dynamically-extended JavaScript objects. -/
structure EngineCluster where
  id : ℤ
  centroid : ℚ × ℚ
  memberIndices : List ℕ
  memberHotspots : List Hotspot
  radius : ℝ
  size : ℕ
  algorithm : String
  name : Option String
  statistics : Option ClusterStatistics
  priorityLevel : Option String

/-- The keys of the `clusterMap` in `processDBSCANResults` in insertion
order: each cluster id at its first occurrence in the DBSCAN assignment
list. -/
def firstOccurrences : List ℤ → List ℤ
  | [] => []
  | a :: rest => a :: (firstOccurrences rest).filter (fun b => !(b == a))

/-- The bucket `clusterMap.get(clusterId)` built by the
`clusters.forEach((clusterId, pointIndex) => ...)` loop of
`processDBSCANResults`: the point indices assigned to `c`, in index order.
The counter `i` is the index of the head of the remaining assignment list. -/
def memberIndicesOf (c : ℤ) : List ℤ → ℕ → List ℕ
  | [], _ => []
  | a :: rest, i =>
    if a = c then i :: memberIndicesOf c rest (i + 1)
    else memberIndicesOf c rest (i + 1)

/-- `processDBSCANResults` (ClusteringEngine.js lines 192-229): group the
point indices by cluster id, skipping noise points (`clusterId === -1`),
then build one cluster object per id with centroid, radius and size. -/
noncomputable def processDBSCANResults (clusters : List ℤ) (coordinates : List (ℚ × ℚ))
    (hotspots : List Hotspot) : List EngineCluster :=
  let clusterIds := firstOccurrences (clusters.filter (fun c => !(c == -1)))
  clusterIds.map (fun clusterId =>
    let pointIndices := memberIndicesOf clusterId clusters 0
    let clusterPoints := pointIndices.map (fun i => coordinates.getD i (0, 0))
    let clusterHotspots := pointIndices.map (fun i => hotspots.getD i defaultHotspot)
    let centroid := calculateCentroid clusterPoints
    let radius := calculateClusterRadius clusterPoints centroid
    { id := clusterId, centroid := centroid, memberIndices := pointIndices,
      memberHotspots := clusterHotspots, radius := radius,
      size := pointIndices.length, algorithm := "dbscan",
      name := none, statistics := none, priorityLevel := none })

/-- The result object returned by the engine: algorithm tag plus the cluster
list (the other metadata fields of the JavaScript result are not read by any
claim). -/
structure EngineOutput where
  algorithm : String
  clusters : List EngineCluster
  totalClusters : ℕ

/-- `createSingleClusterResult` (ClusteringEngine.js lines 381-412): an empty
result for no hotspots, otherwise a single cluster containing every hotspot. -/
noncomputable def createSingleClusterResult (hotspots : List Hotspot) : EngineOutput :=
  if hotspots.length = 0 then
    { algorithm := "none", clusters := [], totalClusters := 0 }
  else
    let coordinates := prepareCoordinates hotspots
    let centroid := calculateCentroid coordinates
    let radius := calculateClusterRadius coordinates centroid
    { algorithm := "single",
      clusters := [{ id := 0, centroid := centroid,
                     memberIndices := List.range hotspots.length,
                     memberHotspots := hotspots, radius := radius,
                     size := hotspots.length, algorithm := "single",
                     name := none, statistics := none, priorityLevel := none }],
      totalClusters := 1 }

/-- The comparator of `result.clusters.sort((a, b) => b.size - a.size)`:
`a` may precede `b` exactly when `b.size - a.size ≤ 0`.  `Array.prototype.sort`
is stable, which `List.mergeSort` matches. -/
def clusterSizeGE (a b : EngineCluster) : Bool := b.size ≤ a.size

/-- `postProcessClusters` (ClusteringEngine.js lines 422-440): sort the
clusters by descending size with a stable sort, then decorate each cluster
with a name, the algorithm tag, its statistics and its priority level. -/
noncomputable def postProcessClusters (now : ℚ) (algorithm : String)
    (clusters : List EngineCluster) : List EngineCluster :=
  let sorted := clusters.mergeSort clusterSizeGE
  sorted.enum.map (fun p =>
    let stats := calculateClusterStatistics p.2.memberHotspots now
    { p.2 with
      name := some ("Cluster " ++ toString (p.1 + 1)),
      algorithm := algorithm,
      statistics := some stats,
      priorityLevel := some (calculatePriorityLevel stats) })

/-- Raw clustering parameters as they reach `runClustering` and the Joi
schema: every field may be absent. -/
structure RawClusteringParameters where
  eps : Option ℚ
  minPoints : Option ℤ
  k : Option ℤ
  iterations : Option ℤ
  tolerance : Option ℚ
  distanceMetric : Option String
  linkage : Option String
  maxClusters : Option ℤ
deriving DecidableEq, Repr

/-- The parameters with every field absent (JavaScript `{}`), the default of
`options.parameters` in `runClustering`. -/
def emptyParameters : RawClusteringParameters :=
  { eps := none, minPoints := none, k := none, iterations := none,
    tolerance := none, distanceMetric := none, linkage := none,
    maxClusters := none }

/-- `runClustering` (ClusteringEngine.js lines 23-58).  The only check the
engine itself performs is that the algorithm name is one of the keys of
`this.algorithms`; the parameters are forwarded unexamined.  `algImpl`
stands for the algorithm callback `this.algorithms[algorithm]` (whose body
delegates to the external ml-dbscan / ml-kmeans / ml-hclust libraries), and
`now` models `Date.now()` inside the statistics pass. -/
noncomputable def runClustering (algorithm : String)
    (algImpl : RawClusteringParameters → List (ℚ × ℚ) → List Hotspot → EngineOutput)
    (parameters : RawClusteringParameters) (minClusterSize : ℕ) (now : ℚ)
    (hotspots : List Hotspot) : Except String EngineOutput :=
  if algorithm = "dbscan" ∨ algorithm = "kmeans" ∨ algorithm = "hierarchical" then
    let coordinates := prepareCoordinates hotspots
    if coordinates.length < minClusterSize then
      Except.ok (createSingleClusterResult hotspots)
    else
      let result := algImpl parameters coordinates hotspots
      Except.ok { result with
                  clusters := postProcessClusters now algorithm result.clusters }
  else
    Except.error ("Unsupported clustering algorithm: " ++ algorithm)

/-- The default `k` of `runKMeans` (ClusteringEngine.js line 119):
`Math.min(5, Math.ceil(coordinates.length / 3))`. -/
def kmeansDefaultK (n : ℕ) : ℤ := min 5 ⌈(n : ℚ) / 3⌉

/-- The `k` actually used by `runKMeans` on `n` points: the caller-supplied
`parameters.k` if present, otherwise the default. -/
def runKMeansK (n : ℕ) (k : Option ℤ) : ℤ := k.getD (kmeansDefaultK n)

/-- Modelled from the spec (§4.2 centroid method):
`k = clamp(round(sqrt(n/2)), 2, 5)` unless `k_hint` is given. -/
noncomputable def specKHeuristic (n : ℕ) : ℤ :=
  min 5 (max 2 ⌊Real.sqrt ((n : ℝ) / 2) + 1 / 2⌋)

/-- Validated clustering parameters after the Joi schema of
routes/clustering.js has applied its defaults. -/
structure ValidatedParameters where
  eps : ℚ
  minPoints : ℤ
  k : ℤ
  iterations : ℤ
  tolerance : ℚ
  distanceMetric : String
  linkage : String
  maxClusters : ℤ
deriving DecidableEq, Repr

/-- One Joi field check: apply the default when the field is absent, keep the
value when it satisfies the constraint, fail otherwise. -/
def joiField {α : Type} (v : Option α) (dflt : α) (ok : α → Bool) (msg : String) :
    Except String α :=
  match v with
  | none => Except.ok dflt
  | some x => if ok x then Except.ok x else Except.error msg

/-- The `parameters` sub-object of `clusteringOptionsSchema`
(routes/clustering.js lines 13-27): `eps` positive (default `0.01`),
`minPoints` an integer at least 2 (default 2), `k` in `[2, 20]` (default 5),
`iterations` in `[10, 1000]` (default 100), `tolerance` positive
(default `1e-4`), `distance` and `linkage` from fixed string sets,
`maxClusters` in `[2, 20]` (default 8). -/
def validateClusteringParameters (p : RawClusteringParameters) :
    Except String ValidatedParameters := do
  let eps ← joiField p.eps (1 / 100) (fun e => decide (0 < e))
    "parameters.eps must be a positive number"
  let minPoints ← joiField p.minPoints 2 (fun m => decide (2 ≤ m))
    "parameters.minPoints must be an integer greater than or equal to 2"
  let k ← joiField p.k 5 (fun k => decide (2 ≤ k ∧ k ≤ 20))
    "parameters.k must be an integer in [2, 20]"
  let iterations ← joiField p.iterations 100 (fun i => decide (10 ≤ i ∧ i ≤ 1000))
    "parameters.iterations must be an integer in [10, 1000]"
  let tolerance ← joiField p.tolerance (1 / 10000) (fun t => decide (0 < t))
    "parameters.tolerance must be a positive number"
  let distanceMetric ← joiField p.distanceMetric "euclidean"
    (fun d => d == "euclidean" || d == "manhattan" || d == "cosine")
    "parameters.distance must be one of euclidean, manhattan, cosine"
  let linkage ← joiField p.linkage "ward"
    (fun l => l == "ward" || l == "single" || l == "complete" || l == "average")
    "parameters.linkage must be one of ward, single, complete, average"
  let maxClusters ← joiField p.maxClusters 8 (fun m => decide (2 ≤ m ∧ m ≤ 20))
    "parameters.maxClusters must be an integer in [2, 20]"
  pure { eps := eps, minPoints := minPoints, k := k, iterations := iterations,
         tolerance := tolerance, distanceMetric := distanceMetric,
         linkage := linkage, maxClusters := maxClusters }

/-- A node handed to the route optimizer: a cluster centroid with its id. -/
structure RouteNode where
  id : String
  lat : ℝ
  lng : ℝ

/-- The `(lat, lng)` position of a route node. -/
noncomputable def nodePosition (n : RouteNode) : ℝ × ℝ := (n.lat, n.lng)

/-- Haversine distance between two `(lat, lng)` positions, via the shared
distance utility. -/
noncomputable def positionDistance (p q : ℝ × ℝ) : ℝ :=
  calculateDistance p.1 p.2 q.1 q.2

/-- Modelled from the spec: the distance of the legs of a path that starts at
`pos` and visits the route nodes in order. -/
noncomputable def pathDistance : ℝ × ℝ → List RouteNode → ℝ
  | _, [] => 0
  | pos, n :: rest => positionDistance pos (nodePosition n) + pathDistance (nodePosition n) rest

/-- Modelled from the spec (§4.3 output): the total route distance; the
`start → first node` leg is included exactly when a start coordinate is
given, otherwise traversal begins at the first node. -/
noncomputable def totalRouteDistance (start : Option (ℝ × ℝ)) : List RouteNode → ℝ :=
  fun route =>
    match start, route with
    | some s, r => pathDistance s r
    | none, [] => 0
    | none, n :: rest => pathDistance (nodePosition n) rest

/-- Modelled from the spec (§4.3 construction, missing source
`backend/route_optimizer.py`): pick the unvisited node nearest to `pos`,
ties broken by input order; returns its index and the node. -/
noncomputable def nearestPick (pos : ℝ × ℝ) : List RouteNode → Option (ℕ × RouteNode)
  | [] => none
  | n :: rest =>
    match nearestPick pos rest with
    | none => some (0, n)
    | some (j, m) =>
      if positionDistance pos (nodePosition m) < positionDistance pos (nodePosition n)
      then some (j + 1, m)
      else some (0, n)

/-- Modelled from the spec (§4.3 construction): greedy nearest-neighbor loop;
the fuel argument equals the number of remaining nodes. -/
noncomputable def nnLoop : ℕ → ℝ × ℝ → List RouteNode → List RouteNode
  | 0, _, _ => []
  | fuel + 1, pos, remaining =>
    match nearestPick pos remaining with
    | none => []
    | some (j, m) => m :: nnLoop fuel (nodePosition m) (remaining.eraseIdx j)

/-- Modelled from the spec (§4.3 construction): the nearest-neighbor route.
With a start coordinate the first leg goes from the start to the nearest
node; without one, traversal begins at the first node in input order. -/
noncomputable def nearestNeighborRoute (start : Option (ℝ × ℝ))
    (nodes : List RouteNode) : List RouteNode :=
  match nodes with
  | [] => []
  | n :: rest =>
    match start with
    | some s => nnLoop (n :: rest).length s (n :: rest)
    | none => n :: nnLoop rest.length (nodePosition n) rest

/-- Modelled from the spec (§4.3 improvement): reverse the segment of the
route between positions `i` and `j` inclusive. -/
def reverseSegment (route : List RouteNode) (i j : ℕ) : List RouteNode :=
  route.take i ++ ((route.drop i).take (j + 1 - i)).reverse ++ route.drop (j + 1)

/-- Modelled from the spec (§4.3 improvement): one 2-opt move; the reversal
is applied if and only if it strictly reduces the total route distance. -/
noncomputable def twoOptStep (start : Option (ℝ × ℝ)) (route : List RouteNode)
    (p : ℕ × ℕ) : List RouteNode :=
  let candidate := reverseSegment route p.1 p.2
  if totalRouteDistance start candidate < totalRouteDistance start route
  then candidate else route

/-- Modelled from the spec (§4.3 improvement): the pairs of non-adjacent
edges `(i, i+1)`, `(j, j+1)` of a route with `n` nodes, scanned in order. -/
def nonAdjacentEdgePairs (n : ℕ) : List (ℕ × ℕ) :=
  (List.range n).flatMap (fun i =>
    ((List.range n).filter (fun j => decide (i + 2 ≤ j) && decide (j + 1 < n))).map
      (fun j => (i, j)))

/-- Modelled from the spec (§4.3 improvement): a single first-improvement
pass over every pair of non-adjacent edges (not iterated to convergence). -/
noncomputable def twoOptPass (start : Option (ℝ × ℝ)) (route : List RouteNode) :
    List RouteNode :=
  (nonAdjacentEdgePairs route.length).foldl (twoOptStep start) route

/-- Modelled from the spec (§4.3): full route optimization; the 2-opt pass is
applied only when the route has at least 4 nodes. -/
noncomputable def optimizeRoute (nodes : List RouteNode) (start : Option (ℝ × ℝ)) :
    List RouteNode :=
  let nn := nearestNeighborRoute start nodes
  if 4 ≤ nodes.length then twoOptPass start nn else nn

/-- The identity-relevant part of a cluster object: id, member indices and
size.  Post-processing may only decorate clusters, never change these. -/
def clusterCore (c : EngineCluster) : ℤ × List ℕ × ℕ :=
  (c.id, c.memberIndices, c.size)

/-- A stand-in for the algorithm callback `this.algorithms[algorithm]`;
used where the callback is never reached or its output is irrelevant. -/
def stubAlgImpl : RawClusteringParameters → List (ℚ × ℚ) → List Hotspot → EngineOutput :=
  fun _ _ _ => { algorithm := "dbscan", clusters := [], totalClusters := 0 }

/-- A concrete two-member cluster whose members have severity 3. -/
noncomputable def sampleClusterLowSeverity : EngineCluster :=
  { id := 0, centroid := (0, 0), memberIndices := [0, 1],
    memberHotspots := [mkPlainHotspot 0 0 3, mkPlainHotspot 0 0 3],
    radius := 0, size := 2, algorithm := "dbscan",
    name := none, statistics := none, priorityLevel := none }

/-- A concrete two-member cluster whose members have severity 9. -/
noncomputable def sampleClusterHighSeverity : EngineCluster :=
  { id := 1, centroid := (0, 0), memberIndices := [2, 3],
    memberHotspots := [mkPlainHotspot 0 0 9, mkPlainHotspot 0 0 9],
    radius := 0, size := 2, algorithm := "dbscan",
    name := none, statistics := none, priorityLevel := none }

/-- A concrete one-member cluster used to exercise the priority pipeline. -/
noncomputable def samplePriorityCluster : EngineCluster :=
  { id := 0, centroid := (0, 0), memberIndices := [0],
    memberHotspots := [mkPlainHotspot 0 0 8],
    radius := 0, size := 1, algorithm := "dbscan",
    name := none, statistics := none, priorityLevel := none }

/-- Clustering parameters with a negative `eps` and a too-small `minPoints`:
an invalid configuration in the sense of the Joi schema. -/
def sampleBadParameters : RawClusteringParameters :=
  { emptyParameters with eps := some (-1), minPoints := some 0 }

theorem foldl_add_map {α : Type} (f : α → ℚ) :
    ∀ (l : List α) (init : ℚ),
      l.foldl (fun s x => s + f x) init = init + (l.map f).sum
  | [], init => by simp
  | a :: rest, init => by
    simp only [List.foldl_cons, List.map_cons, List.sum_cons]
    rw [foldl_add_map f rest (init + f a)]
    ring

/-- Claim C5: the distance utility is the haversine great-circle formula with
Earth radius 6,371,000 m, a pure total function of its four arguments; it is
symmetric in its two coordinate pairs and returns 0 when both coordinates
coincide. -/
theorem calculateDistance_self_eq_zero_and_comm (lat1 lon1 lat2 lon2 : ℝ) :
    calculateDistance lat1 lon1 lat1 lon1 = 0 ∧
    calculateDistance lat1 lon1 lat2 lon2 = calculateDistance lat2 lon2 lat1 lon1 := by
  constructor
  · simp only [calculateDistance, sub_self, zero_mul, zero_div, Real.sin_zero,
      mul_zero, zero_add, add_zero, Real.sqrt_zero, sub_zero, Real.sqrt_one]
    norm_num [jsAtan2, Real.arctan_zero]
  · simp only [calculateDistance]
    rw [show (lat2 - lat1) * Real.pi / 180 = -((lat1 - lat2) * Real.pi / 180) by ring]
    rw [show (lon2 - lon1) * Real.pi / 180 = -((lon1 - lon2) * Real.pi / 180) by ring]
    simp only [neg_div, Real.sin_neg, neg_mul_neg]
    ring_nf

/-- Claim C6 (amended): with no caller-supplied `k`, `runKMeans` uses
`k = min(5, ceil(n / 3))`, which over the integers is `min 5 ((n + 2) / 3)`;
the spec's `clamp(round(sqrt(n/2)), 2, 5)` heuristic is not used. -/
theorem runKMeansK_default_eq (n : ℕ) :
    runKMeansK n none = min 5 (((n : ℤ) + 2) / 3) := by
  have hq : ⌈(n : ℚ) / 3⌉ = ((n : ℤ) + 2) / 3 := by
    set z : ℤ := ((n : ℤ) + 2) / 3 with hz
    rw [Int.ceil_eq_iff]
    have h3 : (n : ℤ) ≤ 3 * z := by omega
    have h4 : 3 * z - 3 < (n : ℤ) := by omega
    have h3q : (n : ℚ) ≤ 3 * (z : ℚ) := by exact_mod_cast h3
    have h4q : 3 * (z : ℚ) - 3 < (n : ℚ) := by exact_mod_cast h4
    constructor
    · rw [lt_div_iff₀ (by norm_num : (0 : ℚ) < 3)]
      linarith
    · rw [div_le_iff₀ (by norm_num : (0 : ℚ) < 3)]
      linarith
  simp [runKMeansK, kmeansDefaultK, hq]

/-- Claim C6, counterexample: on 8 points the engine's default is
`min(5, ceil(8/3)) = 3`, while the spec's `clamp(round(sqrt(8/2)), 2, 5)`
is 2, so the claimed heuristic is not the one the code uses. -/
theorem runKMeansK_ne_specKHeuristic :
    runKMeansK 8 none ≠ specKHeuristic 8 := by
  have hcode : runKMeansK 8 none = 3 := by
    have hceil : ⌈(8 : ℚ) / 3⌉ = 3 := by
      rw [Int.ceil_eq_iff]; norm_num
    simp [runKMeansK, kmeansDefaultK, hceil]
  have hsqrt : Real.sqrt (((8 : ℕ) : ℝ) / 2) = 2 := by
    rw [show ((8 : ℕ) : ℝ) / 2 = 2 ^ 2 by norm_num]
    exact Real.sqrt_sq (by norm_num)
  have hfloor : ⌊Real.sqrt (((8 : ℕ) : ℝ) / 2) + 1 / 2⌋ = 2 := by
    rw [hsqrt, Int.floor_eq_iff]; norm_num
  have hspec : specKHeuristic 8 = 2 := by
    rw [specKHeuristic, hfloor]
    decide
  rw [hcode, hspec]
  decide

/-- Claim C3 (amended): for every non-empty member list the centroid is the
plain, unweighted arithmetic mean of the member coordinates; member
severities play no role. -/
theorem calculateCentroid_eq_unweighted_mean (points : List (ℚ × ℚ))
    (h : points ≠ []) :
    calculateCentroid points =
      ((points.map Prod.fst).sum / points.length,
       (points.map Prod.snd).sum / points.length) := by
  have hl : points.length ≠ 0 := by
    simpa [List.length_eq_zero] using h
  rw [calculateCentroid, if_neg hl]
  rw [show (fun (sum : ℚ) (point : ℚ × ℚ) => sum + point.1)
        = (fun (s : ℚ) (x : ℚ × ℚ) => s + Prod.fst x) from rfl]
  rw [show (fun (sum : ℚ) (point : ℚ × ℚ) => sum + point.2)
        = (fun (s : ℚ) (x : ℚ × ℚ) => s + Prod.snd x) from rfl]
  rw [foldl_add_map Prod.fst points 0, foldl_add_map Prod.snd points 0]
  simp

/-- Claim C3, witness for `calculateCentroid_eq_unweighted_mean` at the
two-point list `[(1, 2), (3, 4)]`. -/
theorem calculateCentroid_eq_unweighted_mean_witness :
    ([((1 : ℚ), (2 : ℚ)), (3, 4)] ≠ []) ∧
    calculateCentroid [((1 : ℚ), (2 : ℚ)), (3, 4)] =
      (([((1 : ℚ), (2 : ℚ)), (3, 4)].map Prod.fst).sum /
         ([((1 : ℚ), (2 : ℚ)), (3, 4)] : List (ℚ × ℚ)).length,
       ([((1 : ℚ), (2 : ℚ)), (3, 4)].map Prod.snd).sum /
         ([((1 : ℚ), (2 : ℚ)), (3, 4)] : List (ℚ × ℚ)).length) :=
  ⟨by simp, calculateCentroid_eq_unweighted_mean [((1 : ℚ), (2 : ℚ)), (3, 4)] (by simp)⟩

/-- Claim C3, counterexample: for the two points `(0,0)` and `(2,0)` with
severities 8 and 4 the code's centroid is `(1, 0)` while the severity-weighted
mean of the spec is `(2/3, 0)`, so the centroid is not the severity-weighted
mean. -/
theorem calculateCentroid_ne_specWeightedCentroid :
    calculateCentroid [((0 : ℚ), (0 : ℚ)), (2, 0)] ≠
      specWeightedCentroid [(((0 : ℚ), (0 : ℚ)), 8), ((2, 0), 4)] := by
  intro hcontra
  have hcode : calculateCentroid [((0 : ℚ), (0 : ℚ)), (2, 0)] = (1, 0) := by
    rw [calculateCentroid]
    norm_num
  have hspec : specWeightedCentroid [(((0 : ℚ), (0 : ℚ)), 8), ((2, 0), 4)] = (2 / 3, 0) := by
    rw [specWeightedCentroid]
    norm_num
  rw [hcode, hspec] at hcontra
  have h1 : (1 : ℚ) = 2 / 3 := congrArg Prod.fst hcontra
  norm_num at h1

/-- Claim C2 (amended): the severity a cluster's statistics carry
(`averageSeverity`) is the plain, unweighted arithmetic mean of the members'
effective severities — neither severity-weighted, nor rounded, nor explicitly
clamped; it lies in `[1, 10]` exactly when the member severities do. -/
theorem averageSeverity_plain_mean_and_bounds (members : List Hotspot) (now : ℚ)
    (hne : members ≠ [])
    (hbound : ∀ h ∈ members, 1 ≤ effectiveSeverity h ∧ effectiveSeverity h ≤ 10) :
    (calculateClusterStatistics members now).averageSeverity
        = (members.map effectiveSeverity).sum / members.length ∧
    1 ≤ (calculateClusterStatistics members now).averageSeverity ∧
    (calculateClusterStatistics members now).averageSeverity ≤ 10 := by
  have hl : members.length ≠ 0 := by
    simpa [List.length_eq_zero] using hne
  have havg : (calculateClusterStatistics members now).averageSeverity
      = (members.map effectiveSeverity).sum / members.length := by
    rw [calculateClusterStatistics, if_neg hl]
  have hpos : (0 : ℚ) < (members.length : ℚ) := by
    exact_mod_cast Nat.pos_of_ne_zero hl
  have hub : ∀ x ∈ members.map effectiveSeverity, x ≤ (10 : ℚ) := by
    intro x hx
    obtain ⟨h0, hh0, rfl⟩ := List.mem_map.1 hx
    exact (hbound h0 hh0).2
  have hlb : ∀ x ∈ members.map effectiveSeverity, (1 : ℚ) ≤ x := by
    intro x hx
    obtain ⟨h0, hh0, rfl⟩ := List.mem_map.1 hx
    exact (hbound h0 hh0).1
  have hup : (members.map effectiveSeverity).sum ≤ (members.length : ℚ) * 10 := by
    have h := List.sum_le_card_nsmul (members.map effectiveSeverity) 10 hub
    simpa [nsmul_eq_mul] using h
  have hlow : (members.length : ℚ) * 1 ≤ (members.map effectiveSeverity).sum := by
    have h := List.card_nsmul_le_sum (members.map effectiveSeverity) 1 hlb
    simpa [nsmul_eq_mul] using h
  refine ⟨havg, ?_, ?_⟩
  · rw [havg, le_div_iff₀ hpos]
    linarith
  · rw [havg, div_le_iff₀ hpos]
    linarith

/-- Claim C2, witness for `averageSeverity_plain_mean_and_bounds` at a single
severity-8 hotspot. -/
theorem averageSeverity_plain_mean_and_bounds_witness :
    (([mkPlainHotspot 0 0 8] : List Hotspot) ≠ []) ∧
    (∀ h ∈ [mkPlainHotspot 0 0 8], 1 ≤ effectiveSeverity h ∧ effectiveSeverity h ≤ 10) ∧
    ((calculateClusterStatistics [mkPlainHotspot 0 0 8] 0).averageSeverity
        = (([mkPlainHotspot 0 0 8]).map effectiveSeverity).sum /
            (([mkPlainHotspot 0 0 8] : List Hotspot)).length ∧
      1 ≤ (calculateClusterStatistics [mkPlainHotspot 0 0 8] 0).averageSeverity ∧
      (calculateClusterStatistics [mkPlainHotspot 0 0 8] 0).averageSeverity ≤ 10) :=
  ⟨by simp, by decide,
   averageSeverity_plain_mean_and_bounds [mkPlainHotspot 0 0 8] 0 (by simp) (by decide)⟩

/-- Claim C2, counterexample: for members of severities 8 and 4 the code
stores `mean = 6`, while the spec's weighted formula gives
`round((8·8 + 4·4)/(8 + 4)) = 7`; moreover a singleton member of severity
`1/2` yields an aggregate `1/2`, outside the claimed range `[1, 10]`, so no
clamp is applied. -/
theorem averageSeverity_counterexample :
    (calculateClusterStatistics [mkPlainHotspot 0 0 8, mkPlainHotspot 0 0 4] 0).averageSeverity
        ≠ ((specAggregateSeverity [8, 4] : ℤ) : ℚ) ∧
    (calculateClusterStatistics [mkPlainHotspot 0 0 (1 / 2)] 0).averageSeverity < 1 := by
  constructor
  · have hcode : (calculateClusterStatistics
        [mkPlainHotspot 0 0 8, mkPlainHotspot 0 0 4] 0).averageSeverity = 6 := by
      rw [calculateClusterStatistics]
      norm_num [effectiveSeverity, mkPlainHotspot]
    have h2 : ((([(8 : ℚ), 4]).map (fun s => s * s)).sum / ([(8 : ℚ), 4]).sum) = 20 / 3 := by
      norm_num
    have h3 : jsRound ((20 : ℚ) / 3) = 7 := by
      rw [jsRound, show (20 : ℚ) / 3 + 1 / 2 = 43 / 6 by norm_num, Int.floor_eq_iff]
      norm_num
    have hspec : specAggregateSeverity [8, 4] = 7 := by
      rw [specAggregateSeverity, h2, h3]
      decide
    rw [hcode, hspec]
    norm_num
  · have hhalf : (calculateClusterStatistics
        [mkPlainHotspot 0 0 (1 / 2)] 0).averageSeverity = 1 / 2 := by
      rw [calculateClusterStatistics]
      norm_num [effectiveSeverity, mkPlainHotspot]
    rw [hhalf]
    norm_num

theorem mem_firstOccurrences (b : ℤ) :
    ∀ (l : List ℤ), b ∈ firstOccurrences l ↔ b ∈ l
  | [] => by simp [firstOccurrences]
  | a :: rest => by
    by_cases hba : b = a
    · subst hba
      simp [firstOccurrences]
    · simp [firstOccurrences, hba, List.mem_filter, mem_firstOccurrences b rest]

theorem nodup_firstOccurrences : ∀ (l : List ℤ), (firstOccurrences l).Nodup
  | [] => by simp [firstOccurrences]
  | a :: rest => by
    rw [firstOccurrences, List.nodup_cons]
    constructor
    · intro hmem
      have h := (List.mem_filter.1 hmem).2
      simp at h
    · exact List.Nodup.filter _ (nodup_firstOccurrences rest)

theorem count_memberIndicesOf (c : ℤ) (i : ℕ) :
    ∀ (assign : List ℤ) (s : ℕ),
      (memberIndicesOf c assign s).count i =
        if s ≤ i ∧ i - s < assign.length ∧ assign.getD (i - s) 0 = c then 1 else 0
  | [], s => by simp [memberIndicesOf]
  | a :: rest, s => by
    rw [memberIndicesOf]
    by_cases his : i = s
    · subst his
      by_cases hac : a = c
      · rw [if_pos hac, List.count_cons_self,
          count_memberIndicesOf c i rest (i + 1)]
        rw [if_neg (by rintro ⟨h1, h2, h3⟩; omega)]
        rw [if_pos ⟨le_refl i, by simp, by simpa using hac⟩]
      · rw [if_neg hac, count_memberIndicesOf c i rest (i + 1)]
        rw [if_neg (by rintro ⟨h1, h2, h3⟩; omega)]
        rw [if_neg (by
          rintro ⟨h1, h2, h3⟩
          rw [Nat.sub_self, List.getD_cons_zero] at h3
          exact hac h3)]
    · have hcnt : (memberIndicesOf c rest (s + 1)).count i =
          if s ≤ i ∧ i - s < (a :: rest).length ∧ (a :: rest).getD (i - s) 0 = c
          then 1 else 0 := by
        rw [count_memberIndicesOf c i rest (s + 1)]
        by_cases hsi : s + 1 ≤ i
        · obtain ⟨k, hk⟩ : ∃ k, i - s = k + 1 := ⟨i - s - 1, by omega⟩
          have hk2 : i - (s + 1) = k := by omega
          rw [hk, hk2, List.getD_cons_succ]
          simp only [List.length_cons]
          refine if_congr ?_ rfl rfl
          constructor
          · rintro ⟨h1, h2, h3⟩
            exact ⟨by omega, by omega, h3⟩
          · rintro ⟨h1, h2, h3⟩
            exact ⟨by omega, by omega, h3⟩
        · rw [if_neg (by rintro ⟨h1, h2, h3⟩; omega),
            if_neg (by rintro ⟨h1, h2, h3⟩; omega)]
      by_cases hac : a = c
      · rw [if_pos hac, List.count_cons_of_ne his, hcnt]
      · rw [if_neg hac, hcnt]

theorem sum_map_eq_one_of_indicator (f : ℤ → ℕ) (c0 : ℤ)
    (hf1 : f c0 = 1) (hf0 : ∀ c, c ≠ c0 → f c = 0) :
    ∀ (l : List ℤ), l.Nodup → c0 ∈ l → (l.map f).sum = 1
  | [], _, hm => by simp at hm
  | a :: rest, hnd, hm => by
    rw [List.map_cons, List.sum_cons]
    rcases List.mem_cons.1 hm with rfl | hmr
    · rw [hf1]
      have hz : (rest.map f).sum = 0 := by
        apply List.sum_eq_zero
        intro x hx
        obtain ⟨c, hc, rfl⟩ := List.mem_map.1 hx
        exact hf0 c (fun hcc => (List.nodup_cons.1 hnd).1 (hcc ▸ hc))
      rw [hz]
    · have ha : a ≠ c0 := fun hcc => (List.nodup_cons.1 hnd).1 (hcc ▸ hmr)
      rw [hf0 a ha,
        sum_map_eq_one_of_indicator f c0 hf1 hf0 rest (List.nodup_cons.1 hnd).2 hmr]

/-- Claim C1 (amended): in the DBSCAN result processing, every point whose
density label is not `-1` appears in exactly one cluster's member list, and
every point labelled `-1` (noise) appears in none — noise points are dropped
from the cluster list rather than becoming singleton clusters. -/
theorem processDBSCANResults_membership (clustersAssign : List ℤ)
    (coordinates : List (ℚ × ℚ)) (hotspots : List Hotspot) (i : ℕ)
    (hi : i < clustersAssign.length) :
    (((processDBSCANResults clustersAssign coordinates hotspots).map
        EngineCluster.memberIndices).flatten).count i =
      if clustersAssign.getD i 0 = -1 then 0 else 1 := by
  have hmap : (processDBSCANResults clustersAssign coordinates hotspots).map
      EngineCluster.memberIndices
      = (firstOccurrences (clustersAssign.filter (fun c => !(c == -1)))).map
          (fun c => memberIndicesOf c clustersAssign 0) := by
    simp only [processDBSCANResults, List.map_map]
    rfl
  rw [hmap, List.count_flatten, List.map_map]
  have hcount : ∀ c : ℤ,
      (List.count i ∘ fun c => memberIndicesOf c clustersAssign 0) c
        = if clustersAssign.getD i 0 = c then 1 else 0 := by
    intro c
    simp only [Function.comp]
    rw [count_memberIndicesOf]
    refine if_congr ?_ rfl rfl
    constructor
    · rintro ⟨h1, h2, h3⟩
      simpa using h3
    · intro h3
      exact ⟨Nat.zero_le i, by simpa using hi, by simpa using h3⟩
  rw [List.map_congr_left (fun c _ => hcount c)]
  by_cases hnoise : clustersAssign.getD i 0 = -1
  · rw [if_pos hnoise]
    apply List.sum_eq_zero
    intro x hx
    obtain ⟨c, hc, rfl⟩ := List.mem_map.1 hx
    have hcne : c ≠ -1 := by
      have h1 := (mem_firstOccurrences c _).1 hc
      have h2 := (List.mem_filter.1 h1).2
      simpa using h2
    have hne2 : ¬(clustersAssign.getD i 0 = c) := by
      intro h
      exact hcne (by rw [← h]; exact hnoise)
    rw [if_neg hne2]
  · rw [if_neg hnoise]
    apply sum_map_eq_one_of_indicator _ (clustersAssign.getD i 0)
      (if_pos rfl) (fun c hc => if_neg (fun h => hc h.symm))
      _ (nodup_firstOccurrences _)
    rw [mem_firstOccurrences, List.mem_filter]
    constructor
    · rw [List.getD_eq_getElem _ _ hi]
      exact List.getElem_mem hi
    · simpa using hnoise

/-- Claim C1, witness for `processDBSCANResults_membership`: three points,
the middle one labelled noise. -/
theorem processDBSCANResults_membership_witness :
    0 < ([5, -1, 5] : List ℤ).length ∧
    (((processDBSCANResults [5, -1, 5] [(0, 0), (1, 1), (2, 2)]
          [mkPlainHotspot 0 0 5, mkPlainHotspot 1 1 5, mkPlainHotspot 2 2 5]).map
        EngineCluster.memberIndices).flatten).count 0 =
      (if ([5, -1, 5] : List ℤ).getD 0 0 = -1 then 0 else 1) :=
  ⟨by decide,
   processDBSCANResults_membership [5, -1, 5] [(0, 0), (1, 1), (2, 2)]
     [mkPlainHotspot 0 0 5, mkPlainHotspot 1 1 5, mkPlainHotspot 2 2 5] 0 (by decide)⟩

/-- Claim C1, counterexample: a single validated point labelled noise by the
density pass produces an empty cluster list — the point is not returned as a
singleton cluster, so the union of cluster members does not cover the input. -/
theorem processDBSCANResults_noise_dropped :
    processDBSCANResults [-1] [(0, 0)] [mkPlainHotspot 0 0 5] = [] := by
  rfl

/-- Claim C4 (amended): on the empty input the engine returns the empty
cluster list; on a non-empty input with fewer points than `minClusterSize`
it returns exactly ONE cluster containing all the input points (each point
once) without running the clustering algorithm — not one singleton cluster
per point. -/
theorem runClustering_small_inputs
    (algImpl : RawClusteringParameters → List (ℚ × ℚ) → List Hotspot → EngineOutput)
    (parameters : RawClusteringParameters) (minClusterSize : ℕ) (now : ℚ)
    (hotspots : List Hotspot) (hmin : 1 ≤ minClusterSize) :
    runClustering "dbscan" algImpl parameters minClusterSize now [] =
      Except.ok { algorithm := "none", clusters := [], totalClusters := 0 } ∧
    (hotspots ≠ [] → hotspots.length < minClusterSize →
      ∃ c, runClustering "dbscan" algImpl parameters minClusterSize now hotspots =
          Except.ok { algorithm := "single", clusters := [c], totalClusters := 1 } ∧
        c.memberHotspots = hotspots ∧ c.size = hotspots.length ∧
        c.memberIndices = List.range hotspots.length) := by
  have halg : ("dbscan" = "dbscan" ∨ "dbscan" = "kmeans" ∨ "dbscan" = "hierarchical") :=
    Or.inl rfl
  constructor
  · rw [runClustering, if_pos halg]
    have h0 : (prepareCoordinates []).length < minClusterSize := by
      simp only [prepareCoordinates, List.map_nil, List.length_nil]
      omega
    rw [if_pos h0, createSingleClusterResult]
    simp
  · intro hne hlen
    have hl : hotspots.length ≠ 0 := by
      simpa [List.length_eq_zero] using hne
    have hcoord : (prepareCoordinates hotspots).length < minClusterSize := by
      simpa [prepareCoordinates] using hlen
    refine ⟨{ id := 0,
              centroid := calculateCentroid (prepareCoordinates hotspots),
              memberIndices := List.range hotspots.length,
              memberHotspots := hotspots,
              radius := calculateClusterRadius (prepareCoordinates hotspots)
                (calculateCentroid (prepareCoordinates hotspots)),
              size := hotspots.length, algorithm := "single",
              name := none, statistics := none, priorityLevel := none },
            ?_, rfl, rfl, rfl⟩
    rw [runClustering, if_pos halg, if_pos hcoord, createSingleClusterResult, if_neg hl]

/-- Claim C4, witness for `runClustering_small_inputs`: two points below a
`minClusterSize` of 3. -/
theorem runClustering_small_inputs_witness :
    1 ≤ 3 ∧
    (runClustering "dbscan" stubAlgImpl emptyParameters 3 0 [] =
       Except.ok { algorithm := "none", clusters := [], totalClusters := 0 } ∧
     ([mkPlainHotspot 0 0 5, mkPlainHotspot 1 1 5] ≠ ([] : List Hotspot) →
      ([mkPlainHotspot 0 0 5, mkPlainHotspot 1 1 5] : List Hotspot).length < 3 →
      ∃ c, runClustering "dbscan" stubAlgImpl emptyParameters 3 0
            [mkPlainHotspot 0 0 5, mkPlainHotspot 1 1 5] =
          Except.ok { algorithm := "single", clusters := [c], totalClusters := 1 } ∧
        c.memberHotspots = [mkPlainHotspot 0 0 5, mkPlainHotspot 1 1 5] ∧
        c.size = ([mkPlainHotspot 0 0 5, mkPlainHotspot 1 1 5] : List Hotspot).length ∧
        c.memberIndices =
          List.range ([mkPlainHotspot 0 0 5, mkPlainHotspot 1 1 5] : List Hotspot).length)) :=
  ⟨by decide,
   runClustering_small_inputs stubAlgImpl emptyParameters 3 0
     [mkPlainHotspot 0 0 5, mkPlainHotspot 1 1 5] (by decide)⟩

/-- Claim C4, counterexample: two input points with `minClusterSize = 3`
(below the minimum, so the claim demands two singleton clusters) produce a
single cluster of size 2 — not one singleton cluster per point. -/
theorem runClustering_below_min_not_singletons :
    ∃ out, runClustering "dbscan" stubAlgImpl emptyParameters 3 0
        [mkPlainHotspot 0 0 5, mkPlainHotspot 1 1 5] = Except.ok out ∧
      out.clusters.map EngineCluster.size = [2] := by
  refine ⟨createSingleClusterResult [mkPlainHotspot 0 0 5, mkPlainHotspot 1 1 5], ?_, ?_⟩
  · rw [runClustering, if_pos (Or.inl rfl), if_pos (by simp [prepareCoordinates])]
  · rw [createSingleClusterResult, if_neg (by simp)]
    simp

theorem clusterSizeGE_trans (a b c : EngineCluster)
    (hab : clusterSizeGE a b = true) (hbc : clusterSizeGE b c = true) :
    clusterSizeGE a c = true := by
  simp only [clusterSizeGE, decide_eq_true_eq] at *
  omega

theorem clusterSizeGE_total (a b : EngineCluster) :
    (clusterSizeGE a b || clusterSizeGE b a) = true := by
  simp only [clusterSizeGE, Bool.or_eq_true, decide_eq_true_eq]
  omega

theorem postProcessClusters_map_eq (now : ℚ) (algorithm : String)
    (clusters : List EngineCluster) {α : Type} (g : EngineCluster → α)
    (hg : ∀ (c : EngineCluster) (nm : Option String) (alg : String)
        (stats : Option ClusterStatistics) (plevel : Option String),
        g { c with
              name := nm, algorithm := alg, statistics := stats, priorityLevel := plevel }
          = g c) :
    (postProcessClusters now algorithm clusters).map g
      = (clusters.mergeSort clusterSizeGE).map g := by
  simp only [postProcessClusters]
  rw [List.map_map]
  have hfun : (g ∘ fun p : ℕ × EngineCluster =>
      { p.2 with
          name := some ("Cluster " ++ toString (p.1 + 1)),
          algorithm := algorithm,
          statistics := some (calculateClusterStatistics p.2.memberHotspots now),
          priorityLevel :=
            some (calculatePriorityLevel (calculateClusterStatistics p.2.memberHotspots now)) })
      = fun p : ℕ × EngineCluster => g p.2 := by
    funext p
    exact hg p.2 _ _ _ _
  rw [hfun]
  rw [show (fun p : ℕ × EngineCluster => g p.2) = (g ∘ Prod.snd) from rfl]
  rw [← List.map_map, List.enum_map_snd]

/-- Claim C7 (amended): post-processing returns the clusters sorted by
descending member count ONLY (a stable sort, so equal-size clusters keep
their input order); the underlying clusters are a permutation of the input —
no cluster is added or dropped.  Severity and centroid latitude are not
consulted. -/
theorem postProcessClusters_sorted_and_perm (now : ℚ) (algorithm : String)
    (clusters : List EngineCluster) :
    ((postProcessClusters now algorithm clusters).map EngineCluster.size).Pairwise
        (fun a b => b ≤ a) ∧
    ((postProcessClusters now algorithm clusters).map clusterCore).Perm
        (clusters.map clusterCore) := by
  constructor
  · rw [postProcessClusters_map_eq now algorithm clusters EngineCluster.size
      (fun c nm alg stats plevel => rfl)]
    have hsorted := List.sorted_mergeSort
      clusterSizeGE_trans clusterSizeGE_total clusters
    refine List.Pairwise.map EngineCluster.size ?_ hsorted
    intro a b hab
    simpa [clusterSizeGE] using hab
  · rw [postProcessClusters_map_eq now algorithm clusters clusterCore
      (fun c nm alg stats plevel => rfl)]
    exact (List.mergeSort_perm clusters clusterSizeGE).map clusterCore

/-- Claim C7, counterexample: two clusters of equal size, the first with
aggregate severity 3 and the second with aggregate severity 9, are returned
in their input order `(severity 3 first)` — the tie is NOT broken by
descending aggregate severity as claimed. -/
theorem postProcessClusters_tie_not_by_severity :
    (postProcessClusters 0 "dbscan"
        [sampleClusterLowSeverity, sampleClusterHighSeverity]).map
        (fun c => (c.size, (c.statistics.map ClusterStatistics.averageSeverity).getD 0))
      = [(2, 3), (2, 9)] ∧ (3 : ℚ) < 9 := by
  refine ⟨?_, by norm_num⟩
  have hsorted : [sampleClusterLowSeverity, sampleClusterHighSeverity].mergeSort clusterSizeGE
      = [sampleClusterLowSeverity, sampleClusterHighSeverity] := by
    apply List.mergeSort_of_sorted
    decide
  simp only [postProcessClusters]
  rw [hsorted]
  simp [List.enum, List.enumFrom, calculateClusterStatistics,
    sampleClusterLowSeverity, sampleClusterHighSeverity, effectiveSeverity, mkPlainHotspot]

/-- Claim C8 (amended): the engine itself rejects only an unsupported
algorithm NAME before any computation; the constraints on `eps` and
`minPoints` are enforced not by the engine but by the HTTP route's Joi
schema, which fails before the engine is invoked. -/
theorem configuration_validation_location (algorithm : String)
    (algImpl : RawClusteringParameters → List (ℚ × ℚ) → List Hotspot → EngineOutput)
    (parameters : RawClusteringParameters) (minClusterSize : ℕ) (now : ℚ)
    (hotspots : List Hotspot) :
    (¬(algorithm = "dbscan" ∨ algorithm = "kmeans" ∨ algorithm = "hierarchical") →
       runClustering algorithm algImpl parameters minClusterSize now hotspots =
         Except.error ("Unsupported clustering algorithm: " ++ algorithm)) ∧
    (∀ e : ℚ, parameters.eps = some e → e ≤ 0 →
       ∃ msg, validateClusteringParameters parameters = Except.error msg) ∧
    (∀ m : ℤ, parameters.minPoints = some m → m < 2 →
       ∃ msg, validateClusteringParameters parameters = Except.error msg) := by
  refine ⟨?_, ?_, ?_⟩
  · intro halg
    rw [runClustering, if_neg halg]
  · intro e he hle
    have hnot : ¬(0 < e) := not_lt.2 hle
    refine ⟨"parameters.eps must be a positive number", ?_⟩
    simp [validateClusteringParameters, joiField, he, hnot, Bind.bind, Except.bind]
  · intro m hm hlt
    have hnotm : ¬(2 ≤ m) := by omega
    rcases heps : parameters.eps with _ | e
    · refine ⟨"parameters.minPoints must be an integer greater than or equal to 2", ?_⟩
      simp [validateClusteringParameters, joiField, heps, hm, hnotm, Bind.bind, Except.bind]
    · by_cases h0 : 0 < e
      · refine ⟨"parameters.minPoints must be an integer greater than or equal to 2", ?_⟩
        simp [validateClusteringParameters, joiField, heps, hm, hnotm, h0, Bind.bind,
          Except.bind]
      · refine ⟨"parameters.eps must be a positive number", ?_⟩
        simp [validateClusteringParameters, joiField, heps, h0, Bind.bind, Except.bind]

/-- Claim C8, witness for `configuration_validation_location`: the unsupported
algorithm name `"svm"` and a parameter set with `eps = -1`. -/
theorem configuration_validation_location_witness :
    ¬("svm" = "dbscan" ∨ "svm" = "kmeans" ∨ "svm" = "hierarchical") ∧
    sampleBadParameters.eps = some (-1) ∧ ((-1 : ℚ) ≤ 0) ∧
    runClustering "svm" stubAlgImpl sampleBadParameters 2 0 [] =
      Except.error ("Unsupported clustering algorithm: " ++ "svm") ∧
    (∃ msg, validateClusteringParameters sampleBadParameters = Except.error msg) :=
  ⟨by decide, rfl, by decide,
   (configuration_validation_location "svm" stubAlgImpl sampleBadParameters 2 0 []).1
     (by decide),
   (configuration_validation_location "svm" stubAlgImpl sampleBadParameters 2 0 []).2.1
     (-1) rfl (by decide)⟩

/-- Claim C8, counterexample: invoked directly with a negative `eps`, the
engine does NOT fail fast — it runs to completion and returns a successful
result, so the claimed engine-level fail-fast behavior does not exist. -/
theorem runClustering_accepts_negative_eps :
    ∃ out, runClustering "dbscan" stubAlgImpl sampleBadParameters 2 0 [mkPlainHotspot 0 0 5]
      = Except.ok out := by
  refine ⟨createSingleClusterResult [mkPlainHotspot 0 0 5], ?_⟩
  rw [runClustering, if_pos (Or.inl rfl), if_pos (by simp [prepareCoordinates])]

theorem hotspotPriorityContribution_nonneg (now : ℚ) (h : Hotspot)
    (hs : 0 ≤ effectiveSeverity h) : 0 ≤ hotspotPriorityContribution now h := by
  simp only [hotspotPriorityContribution]
  refine add_nonneg (add_nonneg (add_nonneg (add_nonneg ?_ ?_) ?_) ?_) ?_
  · linarith
  · split
    · norm_num
    · norm_num
  · split
    · norm_num
    · norm_num
  · split
    · norm_num
    · norm_num
  · rcases h.typical_reports with _ | ⟨t, ts⟩
    · norm_num
    · dsimp only
      split
      · norm_num
      · split
        · norm_num
        · norm_num

theorem foldl_contribution_nonneg (now : ℚ) :
    ∀ (l : List Hotspot) (init : ℚ), 0 ≤ init →
      (∀ h ∈ l, 0 ≤ effectiveSeverity h) →
      0 ≤ l.foldl (fun score h => score + hotspotPriorityContribution now h) init
  | [], init, hi, _ => by simpa using hi
  | a :: rest, init, hi, hl => by
    rw [List.foldl_cons]
    exact foldl_contribution_nonneg now rest _
      (add_nonneg hi (hotspotPriorityContribution_nonneg now a (hl a (by simp))))
      (fun h hh => hl h (by simp [hh]))

theorem calculateClusterPriorityScore_bounds (members : List Hotspot) (now : ℚ)
    (hs : ∀ h ∈ members, 0 ≤ effectiveSeverity h) :
    0 ≤ calculateClusterPriorityScore members now ∧
    calculateClusterPriorityScore members now ≤ 100 := by
  rw [calculateClusterPriorityScore]
  constructor
  · refine le_min (by norm_num) ?_
    rw [jsRound]
    have hscore : 0 ≤ members.foldl
        (fun score h => score + hotspotPriorityContribution now h) 0 :=
      foldl_contribution_nonneg now members 0 le_rfl hs
    refine Int.le_floor.2 ?_
    push_cast
    linarith
  · exact min_le_left _ _

theorem calculateClusterStatistics_priorityScore_bounds (members : List Hotspot)
    (now : ℚ) (hs : ∀ h ∈ members, 0 ≤ effectiveSeverity h) :
    0 ≤ (calculateClusterStatistics members now).priorityScore ∧
    (calculateClusterStatistics members now).priorityScore ≤ 100 := by
  rw [calculateClusterStatistics]
  by_cases hl : members.length = 0
  · rw [if_pos hl]
    exact ⟨le_refl 0, by norm_num⟩
  · rw [if_neg hl]
    exact calculateClusterPriorityScore_bounds members now hs

/-- Claim C10: when every member severity is non-negative, every cluster
produced by post-processing carries `statistics.priorityScore ∈ [0, 100]`
(accumulated score rounded and capped at 100), and its `priorityLevel` is
determined from that score alone by the thresholds 80 (critical),
60 (high) and 40 (medium). -/
theorem postProcess_priorityScore_in_range (now : ℚ) (algorithm : String)
    (clusters : List EngineCluster)
    (hsev : ∀ c ∈ clusters, ∀ h ∈ c.memberHotspots, 0 ≤ effectiveSeverity h) :
    ∀ pc ∈ postProcessClusters now algorithm clusters,
      ∃ stats, pc.statistics = some stats ∧
        0 ≤ stats.priorityScore ∧ stats.priorityScore ≤ 100 ∧
        pc.priorityLevel = some (if stats.priorityScore ≥ 80 then "critical"
          else if stats.priorityScore ≥ 60 then "high"
          else if stats.priorityScore ≥ 40 then "medium" else "low") := by
  intro pc hpc
  simp only [postProcessClusters] at hpc
  rw [List.mem_map] at hpc
  obtain ⟨⟨i, c⟩, hp, rfl⟩ := hpc
  have hp2 : c ∈ clusters.mergeSort clusterSizeGE := by
    obtain ⟨hlt, heq⟩ := List.mem_enum hp
    rw [heq]
    exact List.getElem_mem hlt
  have hmem : c ∈ clusters := ((List.mergeSort_perm clusters clusterSizeGE).mem_iff).1 hp2
  obtain ⟨hge, hle⟩ :=
    calculateClusterStatistics_priorityScore_bounds c.memberHotspots now (hsev c hmem)
  exact ⟨calculateClusterStatistics c.memberHotspots now, rfl, hge, hle, rfl⟩

/-- Claim C10, witness for `postProcess_priorityScore_in_range` at a single
one-member cluster of severity 8. -/
theorem postProcess_priorityScore_in_range_witness :
    (∀ c ∈ [samplePriorityCluster], ∀ h ∈ c.memberHotspots, 0 ≤ effectiveSeverity h) ∧
    (∀ pc ∈ postProcessClusters 0 "dbscan" [samplePriorityCluster],
      ∃ stats, pc.statistics = some stats ∧
        0 ≤ stats.priorityScore ∧ stats.priorityScore ≤ 100 ∧
        pc.priorityLevel = some (if stats.priorityScore ≥ 80 then "critical"
          else if stats.priorityScore ≥ 60 then "high"
          else if stats.priorityScore ≥ 40 then "medium" else "low")) :=
  ⟨by decide,
   postProcess_priorityScore_in_range 0 "dbscan" [samplePriorityCluster] (by decide)⟩

theorem twoOptStep_le (start : Option (ℝ × ℝ)) (route : List RouteNode) (p : ℕ × ℕ) :
    totalRouteDistance start (twoOptStep start route p) ≤ totalRouteDistance start route := by
  rw [twoOptStep]
  split
  · exact le_of_lt (by assumption)
  · exact le_refl _

theorem twoOptFold_le (start : Option (ℝ × ℝ)) :
    ∀ (pairs : List (ℕ × ℕ)) (route : List RouteNode),
      totalRouteDistance start (pairs.foldl (twoOptStep start) route)
        ≤ totalRouteDistance start route
  | [], route => le_refl _
  | p :: rest, route => by
    rw [List.foldl_cons]
    exact le_trans (twoOptFold_le start rest (twoOptStep start route p))
      (twoOptStep_le start route p)

/-- Claim C9: the single 2-opt improvement pass applies a segment reversal
only when it strictly reduces the total route distance, so the optimized
route's total distance is never greater than the nearest-neighbor route's
distance for the same nodes and start point. -/
theorem optimizeRoute_non_regression (nodes : List RouteNode) (start : Option (ℝ × ℝ)) :
    totalRouteDistance start (optimizeRoute nodes start)
      ≤ totalRouteDistance start (nearestNeighborRoute start nodes) := by
  rw [optimizeRoute]
  split
  · rw [twoOptPass]
    exact twoOptFold_le start _ _
  · exact le_refl _

end WasteMapping
